import Mathlib

/-!
Shallow embedding of the rust-bus service-side framework: the interface
registry with its standard meta-interfaces, the object-path tree, the
per-bus-name server, target matching and the runner dispatch loop.
Each definition mirrors the function of the same name in the source
(src/interface.rs, src/server.rs, src/runner.rs, src/target.rs,
src/arguments.rs, src/message.rs, src/error.rs, src/connection.rs).
Shared interior mutability (Rc/RefCell) is rendered as explicit state
passing; Rust panics are rendered as distinguished outcome constructors
or as `none` in an `Option` result.
-/

namespace Bus

/-- Wire values are produced by an external codec collaborator
(dbus-serialize); the core only ever byte-compares their signature
strings.  The model keeps string values (needed because the core itself
builds string arguments for replies), dictionaries (built by
`get_property_map`), and an abstract constructor carrying just the
signature the codec would report for any other value. -/
inductive Value where
  | str (s : String)
  | dict (entries : List (String × Value))
  | other (sig : String)

/-- The codec computes each value signature; strings have signature `s`
and the property dictionaries sent by GetAll have signature `a{sv}`. -/
def Value.get_signature : Value → String
  | .str _ => "s"
  | .dict _ => "a{sv}"
  | .other sig => sig

/-- Error states of src/error.rs (payloads of external error types are
kept as their display strings). -/
inductive DBusError where
  | InvalidReply (desc : String)
  | ErrorMessage (desc : String)
  | NoServerName
  | ServerAlreadyRegistered (server : String)
  | NoSuchServer (server : String)
  | PathAlreadyRegistered (path : String)
  | InvalidPath (path : String)
  | NoSuchPath (path : String)
  | ExtractArguments (desc : String)
  | InterfaceAlreadyRegistered (name : String)
deriving DecidableEq, Repr

/-- An error message from a method call (interface.rs ErrorMessage). -/
structure ErrorMessage where
  name : String
  message : String
deriving DecidableEq, Repr

inductive MessageType where
  | Error
  | Invalid
  | MethodCall
  | MethodReturn
  | Signal
deriving DecidableEq, Repr

/-- The message model (message.rs): type, routing headers and the body.
`body = none` models a message whose bytes decode to no values (a fresh
reply before any argument is added); the reply serial is not modelled. -/
structure Message where
  msgType : MessageType
  path : Option String
  interface : Option String
  member : Option String
  body : Option (List Value)
  errorName : Option String

/-- message.rs Message::error_message: a fresh Error-type message (the
source copies only the serial of the request, which is not modelled). -/
def Message.error_message (_self : Message) (name : String) : Message :=
  { msgType := .Error, path := none, interface := none, member := none,
    body := none, errorName := some name }

/-- message.rs Message::return_message: a fresh MethodReturn message. -/
def Message.return_message (_self : Message) : Message :=
  { msgType := .MethodReturn, path := none, interface := none, member := none,
    body := none, errorName := none }

/-- message.rs Message::add_argument: marshal one more value into the body. -/
def Message.add_argument (self : Message) (arg : Value) : Message :=
  { self with body := some ((self.body.getD []) ++ [arg]) }

/-- interface.rs ErrorMessage::into_message: build the error reply,
carrying the message text as a single string argument. -/
def ErrorMessage.into_message (self : ErrorMessage) (msg : Message) : Message :=
  (msg.error_message self.name).add_argument (.str self.message)

/-- target.rs Target: a (interface, object-path, member) triple. -/
structure Target where
  interface : String
  object : String
  method : String
deriving DecidableEq, Repr

/-- Rust str::starts_with for whole-string prefixes, rendered at the
character-list level so that it evaluates structurally. -/
def strStartsWith (s p : String) : Bool :=
  p.data.isPrefixOf s.data

/-- target.rs Target::namespace_eq: interface and member must match
exactly and the observed object must start with the registered object
followed by a slash. -/
def Target.namespace_eq (self t : Target) : Bool :=
  self.interface == t.interface && self.method == t.method &&
    strStartsWith t.object (self.object ++ "/")

/-- interface.rs Argument: name and signature of one method argument. -/
structure Argument where
  name : String
  signature : String
deriving DecidableEq, Repr

/-- interface.rs Annotation: descriptive metadata, no dispatch effect. -/
structure Annotation where
  name : String
  value : String
deriving DecidableEq, Repr

/-- interface.rs Argument::new. -/
def Argument.new (name : String) (sig : String) : Argument :=
  { name := name, signature := sig }

/-- The result of a method call. -/
abbrev MethodResult := Except ErrorMessage (List Value)

/-- A method callback.  Rust callbacks may panic (the source panics, for
instance, inside the unimplemented GetManagedObjects); a panic escaping
the callback is modelled as `none`. -/
abbrev MethodHandler := Message → Option MethodResult

/-- interface.rs Method: declared in/out arguments and the callback. -/
structure Method where
  in_args : List Argument
  out_args : List Argument
  cb : MethodHandler
  anns : List Annotation

/-- interface.rs Method::new. -/
def Method.new (cb : MethodHandler) : Method :=
  { in_args := [], out_args := [], cb := cb, anns := [] }

/-- interface.rs Method::add_argument (an input argument). -/
def Method.add_argument (self : Method) (arg : Argument) : Method :=
  { self with in_args := self.in_args ++ [arg] }

/-- interface.rs Method::add_result (an output argument). -/
def Method.add_result (self : Method) (arg : Argument) : Method :=
  { self with out_args := self.out_args ++ [arg] }

/-- interface.rs Method::annotate. -/
def Method.annotate (self : Method) (ann : Annotation) : Method :=
  { self with anns := self.anns ++ [ann] }

abbrev PropertyGetResult := Except ErrorMessage Value
abbrev PropertySetResult := Except ErrorMessage Unit
abbrev PropertyGetHandler := Unit → PropertyGetResult
abbrev PropertySetHandler := Value → PropertySetResult

/-- interface.rs PropertyAccess: the handler capability variants.  The
RW variant carries one handler exposing both get and set. -/
inductive PropertyAccess where
  | RO (get : PropertyGetHandler)
  | RW (get : PropertyGetHandler) (set : PropertySetHandler)
  | WO (set : PropertySetHandler)

/-- interface.rs Property: declared signature, access mode and handlers. -/
structure Property where
  signature : String
  access : PropertyAccess
  anns : List Annotation

/-- interface.rs Property::new. -/
def Property.new (sig : String) (access : PropertyAccess) : Property :=
  { signature := sig, access := access, anns := [] }

/-- interface.rs Property::new_ro. -/
def Property.new_ro (sig : String) (get : PropertyGetHandler) : Property :=
  Property.new sig (.RO get)

/-- interface.rs Property::new_rw. -/
def Property.new_rw (sig : String) (get : PropertyGetHandler)
    (set : PropertySetHandler) : Property :=
  Property.new sig (.RW get set)

/-- interface.rs Property::new_wo. -/
def Property.new_wo (sig : String) (set : PropertySetHandler) : Property :=
  Property.new sig (.WO set)

/-- interface.rs Property::_check_signature: true exactly when the
declared signature EQUALS the signature of the offered value.  (Note the
call sites below: both of them branch on this the wrong way round.) -/
def Property._check_signature (self : Property) (value : Value) : Bool :=
  self.signature == value.get_signature

/-- interface.rs Signal: declarative shape only. -/
structure Signal where
  args : List Argument
  anns : List Annotation

/-- BTreeMap<String, T> rendered as an association list; `insert`
replaces the value when the key is present (BTreeMap::insert). -/
def mapInsert {α : Type} (m : List (String × α)) (k : String) (v : α) :
    List (String × α) :=
  match m with
  | [] => [(k, v)]
  | (k2, v2) :: rest =>
    if k2 == k then (k2, v) :: rest else (k2, v2) :: mapInsert rest k v

/-- interface.rs Interface: the callable surface of one interface. -/
structure Interface where
  methods : List (String × Method)
  properties : List (String × Property)
  signals : List (String × Signal)
  anns : List Annotation

/-- interface.rs Interface::new. -/
def Interface.new : Interface :=
  { methods := [], properties := [], signals := [], anns := [] }

/-- interface.rs Interface::add_method. -/
def Interface.add_method (self : Interface) (name : String) (method : Method) :
    Interface :=
  { self with methods := mapInsert self.methods name method }

/-- interface.rs Interface::add_property. -/
def Interface.add_property (self : Interface) (name : String)
    (property : Property) : Interface :=
  { self with properties := mapInsert self.properties name property }

/-- interface.rs Interface::get_property. -/
def Interface.get_property (self : Interface) (name : String) :
    Option Property :=
  List.lookup name self.properties

/-- interface.rs Interface::_require_property. -/
def Interface._require_property (self : Interface) (name : String) :
    Except ErrorMessage Property :=
  match List.lookup name self.properties with
  | some p => .ok p
  | none => .error { name := "org.freedesktop.DBus.Error.UnknownProperty",
                     message := "unknown property: " ++ name }

/-- arguments.rs DBusArguments::invalid_arguments. -/
def Arguments.invalid_arguments : ErrorMessage :=
  { name := "org.freedesktop.DBus.Error.InvalidArgs",
    message := "invalid arguments" }

/-- arguments.rs DBusArguments::invalid_argument. -/
def Arguments.invalid_argument (index : Nat) : ErrorMessage :=
  { name := "org.freedesktop.DBus.Error.InvalidArgs",
    message := "invalid argument at " ++ toString index }

/-- interface.rs Interface::get_property_value.  The source reads the
value through the read-capable handler and then PANICS when
`_check_signature` is TRUE, i.e. when the returned value AGREES with the
declared signature; a disagreeing value is shipped.  The panic is
modelled as `none`. -/
def Interface.get_property_value (self : Interface) (name : String) :
    Option MethodResult :=
  match self._require_property name with
  | .error e => some (.error e)
  | .ok prop =>
    let res : PropertyGetResult :=
      match prop.access with
      | .RO ro => ro ()
      | .RW rw _ => rw ()
      | .WO _ => .error { name := "org.freedesktop.DBus.Error.Failed",
                          message := "property is write-only: " ++ name }
    match res with
    | .ok value =>
      if prop._check_signature value then
        none
      else
        some (.ok [value])
    | .error e => some (.error e)

/-- interface.rs Interface::set_property_value.  The source returns
InvalidArgs when `_check_signature` is TRUE, i.e. when the offered value
AGREES with the declared signature, and invokes the write handler when
it disagrees.  The second component records whether control reached a
write-handler call. -/
def Interface.set_property_value (self : Interface) (name : String)
    (value : Value) : MethodResult × Bool :=
  match self._require_property name with
  | .error e => (.error e, false)
  | .ok prop =>
    if prop._check_signature value then
      (.error Arguments.invalid_arguments, false)
    else
      match prop.access with
      | .WO wo =>
        (match wo value with
         | .ok _ => .ok []
         | .error e => .error e, true)
      | .RW _ rw =>
        (match rw value with
         | .ok _ => .ok []
         | .error e => .error e, true)
      | .RO _ =>
        (.error { name := "org.freedesktop.DBus.Error.Failed",
                  message := "property is read-only: " ++ name }, false)

/-- interface.rs Interface::get_property_map: every readable property
whose getter succeeds, in map order; write-only properties and getter
failures are dropped. -/
def Interface.get_property_map (self : Interface) : List (String × Value) :=
  self.properties.filterMap fun kv =>
    (match kv.2.access with
     | .RO ro => (ro ()).toOption
     | .RW rw _ => (rw ()).toOption
     | .WO _ => none).map fun v => (kv.1, v)

/-- arguments.rs DBusArguments: the extracted message body. -/
structure Arguments where
  values : List Value

/-- arguments.rs DBusArguments::new: a bodyless message yields
InvalidArgs. -/
def Arguments.new (msg : Message) : Except ErrorMessage Arguments :=
  match msg.body with
  | some vs => .ok { values := vs }
  | none => .error Arguments.invalid_arguments

/-- arguments.rs DBusArguments::extract. -/
def Arguments.extract (self : Arguments) (index : Nat) :
    Except ErrorMessage Value :=
  match self.values[index]? with
  | some v => .ok v
  | none => .error (Arguments.invalid_argument index)

/-- arguments.rs DBusArguments::extract_string. -/
def Arguments.extract_string (self : Arguments) (index : Nat) :
    Except ErrorMessage String :=
  match self.extract index with
  | .error e => .error e
  | .ok (.str s) => .ok s
  | .ok _ => .error (Arguments.invalid_argument index)

/-- interface.rs require_interface: resolve an interface name in the
registry map or fail UnknownInterface. -/
def require_interface (map : List (String × Interface)) (name : String) :
    Except ErrorMessage Interface :=
  match List.lookup name map with
  | some iface => .ok iface
  | none => .error { name := "org.freedesktop.DBus.Error.UnknownInterface",
                     message := "unknown interface: " ++ name }

/-- Modelled from the spec: the host machine-identity lookup used by
Peer.GetMachineId is an external collaborator (the machine-id crate);
its value is abstracted as one fixed string. -/
def machine_id : String := "00000000000000000000000000000000"

/-- interface.rs PeerInterface::ping. -/
def PeerInterface.ping : MethodResult := .ok []

/-- interface.rs PeerInterface::get_machine_id. -/
def PeerInterface.get_machine_id : MethodResult :=
  .ok [Value.str machine_id]

/-- interface.rs PeerInterface::new: Ping and GetMachineId. -/
def PeerInterface.new : Interface :=
  (Interface.new.add_method "Ping" (Method.new fun _ => some PeerInterface.ping)).add_method
    "GetMachineId"
    ((Method.new fun _ => some PeerInterface.get_machine_id).add_result
      (Argument.new "machine_uuid" "s"))

/-- interface.rs PropertyInterface::get_property.  The source closures
capture a weak reference to the live registry map; the model passes the
map by value (see `InterfacesBuilder.finalize`).  The inner
`get_property_value` may panic, hence the `Option`. -/
def PropertyInterface.get_property (map : List (String × Interface))
    (m : Message) : Option MethodResult :=
  match Arguments.new m with
  | .error e => some (.error e)
  | .ok values =>
    match values.extract_string 0 with
    | .error e => some (.error e)
    | .ok iface =>
      match values.extract_string 1 with
      | .error e => some (.error e)
      | .ok property =>
        match require_interface map iface with
        | .error e => some (.error e)
        | .ok i => i.get_property_value property

/-- interface.rs PropertyInterface::set_property. -/
def PropertyInterface.set_property (map : List (String × Interface))
    (m : Message) : Option MethodResult :=
  match Arguments.new m with
  | .error e => some (.error e)
  | .ok values =>
    match values.extract_string 0 with
    | .error e => some (.error e)
    | .ok iface =>
      match values.extract_string 1 with
      | .error e => some (.error e)
      | .ok property =>
        match values.extract 2 with
        | .error e => some (.error e)
        | .ok value =>
          match require_interface map iface with
          | .error e => some (.error e)
          | .ok i => some (i.set_property_value property value).fst

/-- interface.rs PropertyInterface::get_all_properties. -/
def PropertyInterface.get_all_properties (map : List (String × Interface))
    (m : Message) : Option MethodResult :=
  match Arguments.new m with
  | .error e => some (.error e)
  | .ok values =>
    match values.extract_string 0 with
    | .error e => some (.error e)
    | .ok iface =>
      match require_interface map iface with
      | .error e => some (.error e)
      | .ok i => some (.ok [Value.dict i.get_property_map])

/-- interface.rs PropertyInterface::new: Get, Set and GetAll.  Note the
source declares the third item of Set as a RESULT, not an argument, so
the declared in-signature of Set is `ss`. -/
def PropertyInterface.new (map : List (String × Interface)) : Interface :=
  ((Interface.new.add_method "Get"
      ((((Method.new fun m => PropertyInterface.get_property map m).add_argument
          (Argument.new "interface_name" "s")).add_argument
          (Argument.new "property_name" "s")).add_result
          (Argument.new "value" "v"))).add_method "Set"
      ((((Method.new fun m => PropertyInterface.set_property map m).add_argument
          (Argument.new "interface_name" "s")).add_argument
          (Argument.new "property_name" "s")).add_result
          (Argument.new "value" "v"))).add_method "GetAll"
      (((Method.new fun m => PropertyInterface.get_all_properties map m).add_argument
          (Argument.new "interface_name" "s")).add_result
          (Argument.new "props" "{sv}"))

/-- The source Introspect callback renders the registry and children as
a full XML document.  The text generation is abridged here to the names
of interfaces and children: no claim inspects the text, only that
Introspect returns one string. -/
def introspect_xml (map : List (String × Interface))
    (children : List String) : String :=
  "<node>" ++
    String.join (map.map fun kv => "<interface name " ++ kv.1 ++ ">") ++
    String.join (children.map fun name => "<node name " ++ name ++ ">") ++
    "</node>"

/-- interface.rs IntrospectableInterface::introspect. -/
def IntrospectableInterface.introspect (map : List (String × Interface))
    (children : List String) : MethodResult :=
  .ok [Value.str (introspect_xml map children)]

/-- interface.rs IntrospectableInterface::new. -/
def IntrospectableInterface.new (map : List (String × Interface))
    (children : List String) : Interface :=
  Interface.new.add_method "Introspect"
    ((Method.new fun _ => some (IntrospectableInterface.introspect map children)).add_result
      (Argument.new "xml_data" "s"))

/-- interface.rs CallHeaders: interface and member of a call. -/
structure CallHeaders where
  interface : String
  method : String
deriving DecidableEq, Repr

/-- interface.rs CallHeaders::new: `none` when either header is absent. -/
def CallHeaders.new (msg : Message) : Option CallHeaders :=
  msg.interface.bind fun interface =>
    msg.member.map fun method =>
      { interface := interface, method := method }

/-- interface.rs InterfacesBuilder: the open registry. -/
structure InterfacesBuilder where
  map : List (String × Interface)

/-- interface.rs Interfaces: the finalized registry.  The Rc/RefCell
sharing of the source is rendered by passing the map by value. -/
structure Interfaces where
  map : List (String × Interface)

/-- interface.rs Interfaces::new: an empty open registry. -/
def Interfaces.new : InterfacesBuilder := { map := [] }

/-- interface.rs InterfacesBuilder::add_interface: fails on a name
collision. -/
def InterfacesBuilder.add_interface (self : InterfacesBuilder)
    (name : String) (iface : Interface) : Except DBusError InterfacesBuilder :=
  match List.lookup name self.map with
  | some _ => .error (.InterfaceAlreadyRegistered name)
  | none => .ok { map := self.map ++ [(name, iface)] }

/-- interface.rs InterfacesBuilder::finalize: inject Peer, Properties
and Introspectable, in that order, and close the registry.  The source
hands the meta-interface closures a weak reference to the live map; the
model snapshots the map at installation time, which agrees with the live
map on every lookup the claims exercise (after finalize nothing can be
added, and no claim resolves a standard interface through Properties). -/
def InterfacesBuilder.finalize (self : InterfacesBuilder)
    (children : List String) : Except DBusError Interfaces :=
  match self.add_interface "org.freedesktop.DBus.Peer" PeerInterface.new with
  | .error e => .error e
  | .ok b1 =>
    match b1.add_interface "org.freedesktop.DBus.Properties"
        (PropertyInterface.new b1.map) with
    | .error e => .error e
    | .ok b2 =>
      match b2.add_interface "org.freedesktop.DBus.Introspectable"
          (IntrospectableInterface.new b2.map children) with
      | .error e => .error e
      | .ok b3 => .ok { map := b3.map }

/-- interface.rs Interfaces::_signature: concatenated signatures of a
declared argument list. -/
def Interfaces._signature (args : List Argument) : String :=
  String.join (args.map fun arg => arg.signature)

/-- interface.rs Interfaces::_msg_signature: concatenated signatures of
the message body values (empty for a bodyless message). -/
def Interfaces._msg_signature (msg : Message) : String :=
  match msg.body with
  | none => ""
  | some vs => String.join (vs.map fun v => v.get_signature)

/-- interface.rs Interfaces::_check_signature: byte-compare the declared
in-signature against the actual body signature. -/
def Interfaces._check_signature (args : List Argument) (msg : Message) : Bool :=
  Interfaces._signature args == Interfaces._msg_signature msg

/-- The observable outcome of Interfaces::handle.  `noHeaders` is the
source returning None (not a call, let another handler try); `replied`
carries the message passed to Connection::send together with a flag
recording whether control reached the method callback; `panicked` is a
Rust panic (callback panic, reply signature mismatch, or a reply of an
impossible message type). -/
inductive HandleOutcome where
  | noHeaders
  | replied (reply : Message) (cb_invoked : Bool)
  | panicked (cb_invoked : Bool)

/-- The method-found arm of interface.rs Interfaces::handle: check the
in-signature (mismatch replies InvalidArgs without touching the
callback), run the callback, fold Ok values into a method return or turn
an Err into an error reply, then check the reply: an Error reply is sent
as is, a MethodReturn whose body signature differs from the declared
out-signature panics. -/
def Interfaces.handleMethod (method : Method) (msg : Message) : HandleOutcome :=
  let step : Option (Message × Bool) :=
    if Interfaces._check_signature method.in_args msg then
      (method.cb msg).map fun r =>
        (match r with
         | .ok vals => vals.foldl (fun m v => m.add_argument v) msg.return_message
         | .error err => err.into_message msg, true)
    else
      some (Arguments.invalid_arguments.into_message msg, false)
  match step with
  | none => .panicked true
  | some (res, invoked) =>
    match res.msgType with
    | .Error => .replied res invoked
    | .MethodReturn =>
      if Interfaces._signature method.out_args != Interfaces._msg_signature res
      then .panicked invoked
      else .replied res invoked
    | _ => .panicked invoked

/-- interface.rs Interfaces::handle: resolve the headers, then the
interface and method.  A missing interface uses the SAME error name as a
missing method, org.freedesktop.DBus.Error.UnknownMethod; only the
argument text differs. -/
def Interfaces.handle (self : Interfaces) (msg : Message) : HandleOutcome :=
  match CallHeaders.new msg with
  | none => .noHeaders
  | some hdrs =>
    match List.lookup hdrs.interface self.map with
    | some iface =>
      match List.lookup hdrs.method iface.methods with
      | some method => Interfaces.handleMethod method msg
      | none =>
        .replied
          ((msg.error_message "org.freedesktop.DBus.Error.UnknownMethod").add_argument
            (.str ("unknown method: " ++ hdrs.method))) false
    | none =>
      .replied
        ((msg.error_message "org.freedesktop.DBus.Error.UnknownMethod").add_argument
          (.str ("unknown interface: " ++ hdrs.interface))) false

/-- An object binds a path to a finalized registry (server.rs stores
`DBusObject::new(&path, rc_iface_map)`); handling a message forwards to
the registry. -/
structure Object where
  name : String
  ifaces : Interfaces

/-- Object message handling forwards to Interfaces::handle. -/
def Object.handle_message (self : Object) (msg : Message) : HandleOutcome :=
  self.ifaces.handle msg

/-- server.rs DBusObjectTree: one tree node.  The Rc\<RefCell\<..\>\>
sharing (including the children_names list shared with the
Introspectable closure) is rendered by explicit state passing. -/
inductive ObjectTree where
  | node (object : Option Object) (manager : Bool)
      (children_names : List String)
      (children : List (String × ObjectTree))

/-- server.rs DBusObjectTree::new: an empty node. -/
def ObjectTree.new : ObjectTree := .node none false [] []

/-- The object bound at a node. -/
def ObjectTree.obj : ObjectTree → Option Object
  | .node o _ _ _ => o

/-- The immediate children of a node. -/
def ObjectTree.children : ObjectTree → List (String × ObjectTree)
  | .node _ _ _ cs => cs

/-- The recorded child-name list of a node. -/
def ObjectTree.children_names : ObjectTree → List String
  | .node _ _ ns _ => ns

/-- server.rs DBusObjectTree::find_object: a SINGLE-LEVEL lookup of
`name` among the immediate children of this node (the method the
dispatch path applies to the FULL path string). -/
def ObjectTree.find_object (self : ObjectTree) (name : String) :
    Option ObjectTree :=
  List.lookup name self.children

/-- Replace the value found by `List.lookup` (the in-place mutation of
the child node behind the shared Rc). -/
def replaceChild (children : List (String × ObjectTree)) (k : String)
    (v : ObjectTree) : List (String × ObjectTree) :=
  match children with
  | [] => []
  | (k2, v2) :: rest =>
    if k2 == k then (k2, v) :: rest else (k2, v2) :: replaceChild rest k v

/-- server.rs DBusObjectManagerInterface::new.  Its GetManagedObjects
callback is `unimplemented!()` in the source, i.e. it panics. -/
def DBusObjectManagerInterface.new : Interface :=
  Interface.new.add_method "GetManagedObjects"
    ((Method.new fun _ => none).add_result
      (Argument.new "objpath_interfaces_and_properties" "a{oa{sa{sv}}}"))

/-- Rust str::split for a one-character separator, at the
character-list level: the pieces between consecutive separators,
including empty pieces. -/
def splitOnChar (sep : Char) : List Char → List (List Char)
  | [] => [[]]
  | c :: rest =>
    if c = sep then
      [] :: splitOnChar sep rest
    else
      match splitOnChar sep rest with
      | [] => [[c]]
      | piece :: pieces => (c :: piece) :: pieces

/-- Rust String::split over a one-character separator. -/
def strSplit (s : String) (sep : Char) : List String :=
  (splitOnChar sep s.data).map String.mk

/-- The terminal step of server.rs DBusObjectTree::insert, after the
per-component walk: fail if the node already holds an object, add the
ObjectManager interface for a manager insertion, finalize the builder
against this node children_names, and bind the object.  (The source
line `DBusInterfaceMap::new(iface_map, ..)` names the variable already
moved into `final_iface`; it is read here as `final_iface`.)  Returns
the result together with the updated node. -/
def insertTerminal (path : String) (b : InterfacesBuilder) (mgr : Bool) :
    ObjectTree → Except DBusError Unit × ObjectTree
  | .node o m names children =>
    match o with
    | some obj => (.error (.PathAlreadyRegistered path),
                   .node (some obj) m names children)
    | none =>
      match (if mgr then
               b.add_interface "org.freedesktop.DBus.ObjectManager"
                 DBusObjectManagerInterface.new
             else .ok b) with
      | .error e => (.error e, .node none m names children)
      | .ok fi =>
        match fi.finalize names with
        | .error e => (.error e, .node none m names children)
        | .ok ifaces =>
          (.ok (), .node (some { name := path, ifaces := ifaces }) mgr
                     names children)

/-- The per-component walk of server.rs DBusObjectTree::insert: an empty
component fails InvalidPath; otherwise find-or-create the child (a
created child is also recorded in children_names) and continue inside
it.  Mutations made before a failure persist, exactly as they do behind
the shared Rc cells of the source. -/
def insertWalk (path : String) (b : InterfacesBuilder) (mgr : Bool) :
    ObjectTree → List String → Except DBusError Unit × ObjectTree
  | t, [] => insertTerminal path b mgr t
  | .node o m names children, comp :: rest =>
    if comp == "" then
      (.error (.InvalidPath path), .node o m names children)
    else
      match List.lookup comp children with
      | some child =>
        let r := insertWalk path b mgr child rest
        (r.fst, .node o m names (replaceChild children comp r.snd))
      | none =>
        let r := insertWalk path b mgr ObjectTree.new rest
        (r.fst, .node o m (names ++ [comp]) (children ++ [(comp, r.snd)]))

/-- server.rs DBusObjectTree::insert: reject a path that does not start
with a slash, then walk the components after the leading slash. -/
def ObjectTree.insert (self : ObjectTree) (path : String)
    (iface_map : InterfacesBuilder) (manager : Bool) :
    Except DBusError Unit × ObjectTree :=
  if strStartsWith path "/" then
    insertWalk path iface_map manager self ((strSplit path '/').drop 1)
  else
    (.error (.InvalidPath path), self)

/-- Signal handler callbacks act only through the connection; their
effects are outside this model. -/
def DBusSignalHandler := Target → Unit

/-- server.rs DBusServer.  The Connection reference is the external
transport and is not part of the state. -/
structure DBusServer where
  name : String
  can_handle : Bool
  objects : ObjectTree
  signals : List (Target × List DBusSignalHandler)
  namespace_signals : List (Target × List DBusSignalHandler)

/-- server.rs DBusServer::new_listener: never owns a name, only matches
signals. -/
def DBusServer.new_listener (name : String) : DBusServer :=
  { name := name, can_handle := false, objects := ObjectTree.new,
    signals := [], namespace_signals := [] }

/-- server.rs DBusServer::new: requests its name with the DoNotQueue
policy (the transport interaction is external) and can handle method
calls. -/
def DBusServer.new (name : String) : DBusServer :=
  { name := name, can_handle := true, objects := ObjectTree.new,
    signals := [], namespace_signals := [] }

/-- server.rs DBusServer::add_object: delegates to the tree; fails
NoServerName on a listener.  The tree mutations of a failing insert
persist (Rc sharing), so the updated server is returned alongside the
result. -/
def DBusServer.add_object (self : DBusServer) (path : String)
    (iface_map : InterfacesBuilder) :
    Except DBusError Unit × DBusServer :=
  if !self.can_handle then
    (.error .NoServerName, self)
  else
    let r := self.objects.insert path iface_map false
    (r.fst, { self with objects := r.snd })

/-- server.rs DBusServer::add_object_manager. -/
def DBusServer.add_object_manager (self : DBusServer) (path : String)
    (iface_map : InterfacesBuilder) :
    Except DBusError Unit × DBusServer :=
  if !self.can_handle then
    (.error .NoServerName, self)
  else
    let r := self.objects.insert path iface_map true
    (r.fst, { self with objects := r.snd })

/-- What one server does with one message: the value handle_message
returns (None = consumed), every message passed to Connection::send
while doing so, whether control reached a method callback, and whether a
panic escaped. -/
structure Dispatched where
  passedOn : Option Message
  sent : List Message
  cb_invoked : Bool
  panicked : Bool

/-- server.rs DBusServer::_call_method: a call without a path header is
consumed silently; a path that `find_object` does not resolve gets an
UnknownObject error reply and is consumed; a resolved node without an
object consumes silently; otherwise the object handles the message (its
None hands the message back, its reply is sent and the message is
consumed whether or not the send succeeds). -/
def DBusServer._call_method (self : DBusServer) (m : Message) : Dispatched :=
  match m.path with
  | none => { passedOn := none, sent := [], cb_invoked := false, panicked := false }
  | some path =>
    match self.objects.find_object path with
    | some tree =>
      match tree.obj with
      | none => { passedOn := none, sent := [], cb_invoked := false, panicked := false }
      | some obj =>
        match obj.handle_message m with
        | .noHeaders =>
          { passedOn := some m, sent := [], cb_invoked := false, panicked := false }
        | .replied reply invoked =>
          { passedOn := none, sent := [reply], cb_invoked := invoked, panicked := false }
        | .panicked invoked =>
          { passedOn := none, sent := [], cb_invoked := invoked, panicked := true }
    | none =>
      { passedOn := none,
        sent := [(m.error_message "org.freedesktop.DBus.Error.UnknownObject").add_argument
                   (.str ("unknown object: " ++ path))],
        cb_invoked := false, panicked := false }

/-- server.rs DBusServer::_match_signal runs the exact and namespace
handlers and always hands the message back; the handlers act only
through the connection, so only the routing is modelled. -/
def DBusServer._match_signal (_self : DBusServer) (m : Message) : Dispatched :=
  { passedOn := some m, sent := [], cb_invoked := false, panicked := false }

/-- server.rs DBusServer::handle_message: signals are matched and handed
back, method calls are dispatched, everything else passes through. -/
def DBusServer.handle_message (self : DBusServer) (m : Message) : Dispatched :=
  match m.msgType with
  | .Signal => self._match_signal m
  | .MethodCall => self._call_method m
  | _ => { passedOn := some m, sent := [], cb_invoked := false, panicked := false }

/-- connection.rs ReleaseNameReply. -/
inductive ReleaseNameReply where
  | Released
  | NonExistent
  | NotOwner
deriving DecidableEq, Repr

/-- What dropping a server does, as a function of the release_name
outcome: `skipped` means the early return of a listener (release_name is
never called); `finished` is the Released reply; `panicked` is the fatal
branch; `logged` is the println-and-continue branch taken when the
release_name CALL itself fails. -/
inductive DropOutcome where
  | skipped
  | finished
  | panicked (msg : String)
  | logged
deriving DecidableEq, Repr

/-- True exactly on the fatal branch. -/
def DropOutcome.isFatal : DropOutcome → Bool
  | .panicked _ => true
  | _ => false

/-- server.rs impl Drop for DBusServer: a listener returns at once; a
named server releases its name and panics on the NonExistent and
NotOwner replies, but a transport error from the call is only logged. -/
def DBusServer.drop (self : DBusServer)
    (release_result : Except DBusError ReleaseNameReply) : DropOutcome :=
  if !self.can_handle then
    .skipped
  else
    match release_result with
    | .ok .Released => .finished
    | .ok .NonExistent =>
      .panicked ("internal error: non-existent name " ++ self.name ++ "?!")
    | .ok .NotOwner =>
      .panicked ("internal error: not the owner of " ++ self.name ++ "?!")
    | .error _ => .logged

/-- What the runner loop body does with one message. -/
structure ProcessResult where
  remaining : Option Message
  sent : List Message
  cb_invoked : Bool
  panicked : Bool

/-- The short-circuiting fold of runner.rs Runner::run over the named
servers (BTreeMap iteration order, i.e. sorted by name): each server in
turn handles the message until one consumes it; a panic aborts. -/
def Runner.processServers (servers : List (String × DBusServer))
    (m : Message) : ProcessResult :=
  match servers with
  | [] => { remaining := some m, sent := [], cb_invoked := false, panicked := false }
  | (_, s) :: rest =>
    let d := s.handle_message m
    if d.panicked then
      { remaining := none, sent := d.sent, cb_invoked := d.cb_invoked, panicked := true }
    else
      match d.passedOn with
      | none =>
        { remaining := none, sent := d.sent, cb_invoked := d.cb_invoked, panicked := false }
      | some m2 =>
        let r := Runner.processServers rest m2
        { remaining := r.remaining, sent := d.sent ++ r.sent,
          cb_invoked := d.cb_invoked || r.cb_invoked, panicked := r.panicked }

/-- The body of runner.rs Runner::run for one received message: a signal
is first offered to every listener (listener signal handlers act only
through the connection and return the message unconsumed), then every
message is folded through the named servers. -/
def Runner.process (_listeners : List DBusServer)
    (servers : List (String × DBusServer)) (m : Message) : ProcessResult :=
  Runner.processServers servers m

mutual

/-- The number of objects bound anywhere in a tree. -/
def ObjectTree.objectCount : ObjectTree → Nat
  | .node o _ _ children =>
    (if o.isSome then 1 else 0) + objectCountChildren children

/-- The object count summed over a children list. -/
def objectCountChildren : List (String × ObjectTree) → Nat
  | [] => 0
  | kv :: rest => kv.2.objectCount + objectCountChildren rest

end

/-! Concrete fixtures used by the claim theorems and witnesses. -/

/-- A user method Hello with no in-arguments and one string result. -/
def testMethod : Method :=
  (Method.new fun _ => some (.ok [Value.str "hi"])).add_result
    (Argument.new "reply" "s")

/-- A user interface exposing Hello. -/
def testInterface : Interface :=
  Interface.new.add_method "Hello" testMethod

/-- An open registry holding the user interface. -/
def testBuilder : InterfacesBuilder :=
  match Interfaces.new.add_interface "com.example.Test" testInterface with
  | .ok b => b
  | .error _ => Interfaces.new

/-- The tree produced by inserting the user registry at /a. -/
def treeT : ObjectTree := (ObjectTree.new.insert "/a" testBuilder false).snd

/-- A named server hosting the user registry at /a. -/
def srvT : DBusServer :=
  ((DBusServer.new "com.example").add_object "/a" testBuilder).snd

/-- The finalized user registry on its own. -/
def regT : Interfaces :=
  match testBuilder.finalize [] with
  | .ok i => i
  | .error _ => { map := [] }

/-- A well-formed call to the registered object: path /a, the user
interface and method, and an empty body matching the declared empty
in-signature. -/
def msgT : Message :=
  { msgType := .MethodCall, path := some "/a",
    interface := some "com.example.Test", member := some "Hello",
    body := none, errorName := none }

/-- The same call with one string argument, mismatching the declared
empty in-signature. -/
def msgMismatched : Message :=
  { msgT with body := some [Value.str "x"] }

/-- A call naming an interface absent from every registry here. -/
def msgUnknownIface : Message :=
  { msgT with interface := some "com.example.Missing", member := some "M" }

/-- A call naming a known interface but an unknown method. -/
def msgUnknownMethod : Message :=
  { msgT with member := some "Nope" }

/-- A method call whose path is registered nowhere. -/
def msgStrayPath : Message :=
  { msgType := .MethodCall, path := some "/x", interface := none,
    member := none, body := none, errorName := none }

/-- A method call lacking the path header. -/
def msgNoPath : Message :=
  { msgType := .MethodCall, path := none, interface := none,
    member := none, body := none, errorName := none }

/-- A named server with an empty tree. -/
def srvEmpty : DBusServer := DBusServer.new "com.example.empty"

/-- The UnknownObject error reply srvEmpty sends for msgStrayPath. -/
def replyStray : Message :=
  (msgStrayPath.error_message "org.freedesktop.DBus.Error.UnknownObject").add_argument
    (.str ("unknown object: " ++ "/x"))

/-- The unknown-interface error reply for msgUnknownIface. -/
def replyUnknownIface : Message :=
  (msgUnknownIface.error_message "org.freedesktop.DBus.Error.UnknownMethod").add_argument
    (.str ("unknown interface: " ++ "com.example.Missing"))

/-- A write-only property Volume of declared signature s whose handler
accepts every value. -/
def propIfaceWO : Interface :=
  Interface.new.add_property "Volume"
    (Property.new_wo "s" fun _ => .ok ())

/-- Two read-only properties of declared signature s: one whose handler
returns a value of signature i (disagreeing) and one returning a string
(agreeing). -/
def propIfaceRO : Interface :=
  (Interface.new.add_property "Mismatched"
      (Property.new_ro "s" fun _ => .ok (Value.other "i"))).add_property
    "Matched" (Property.new_ro "s" fun _ => .ok (Value.str "v"))

/-- A registered namespace target. -/
def nsTarget : Target :=
  { interface := "com.example.Sig", object := "/a", method := "Ping" }

/-- An observed target whose object is the registered object plus a bare
trailing slash (empty suffix). -/
def obsTargetSlash : Target :=
  { interface := "com.example.Sig", object := "/a/", method := "Ping" }

/-- An observed target that is a strict descendant. -/
def obsTargetChild : Target :=
  { interface := "com.example.Sig", object := "/a/b", method := "Ping" }

/-- An observed target equal to the registered one. -/
def obsTargetSelf : Target :=
  { interface := "com.example.Sig", object := "/a", method := "Ping" }

/-! Helper lemmas (shared, not themselves claim theorems). -/

/-- The character-level prefix test agrees with string decomposition. -/
theorem strStartsWith_iff (s p : String) :
    strStartsWith s p = true ↔ ∃ t : String, s = p ++ t := by
  constructor
  · intro h
    obtain ⟨t, ht⟩ := List.isPrefixOf_iff_prefix.mp h
    refine ⟨⟨t⟩, String.ext ?_⟩
    rw [String.data_append]
    exact ht.symm
  · rintro ⟨t, rfl⟩
    show (p.data.isPrefixOf (p ++ t).data) = true
    rw [String.data_append]
    exact List.isPrefixOf_iff_prefix.mpr (List.prefix_append _ _)

/-- A failing component walk reports InvalidPath whenever an empty
component is pending. -/
theorem insertWalk_mem_empty (path : String) (b : InterfacesBuilder)
    (mgr : Bool) (comps : List String) :
    ∀ t : ObjectTree, "" ∈ comps →
      (insertWalk path b mgr t comps).fst = .error (.InvalidPath path) := by
  induction comps with
  | nil => intro t h; cases h
  | cons c rest ih =>
    intro t h
    cases t with
    | node o m names children =>
      by_cases hc : c = ""
      · subst hc
        simp [insertWalk]
      · have hr : "" ∈ rest := by
          cases h with
          | head => exact absurd rfl hc
          | tail _ hh => exact hh
        unfold insertWalk
        rw [if_neg (by simp [hc])]
        cases hl : List.lookup c children with
        | some child => simpa using ih child hr
        | none => simpa using ih ObjectTree.new hr

/-- A failing terminal step leaves the node untouched. -/
theorem insertTerminal_error_snd (path : String) (b : InterfacesBuilder)
    (mgr : Bool) (t : ObjectTree) (e : DBusError)
    (h : (insertTerminal path b mgr t).fst = .error e) :
    (insertTerminal path b mgr t).snd = t := by
  cases t with
  | node o m names children =>
    cases o with
    | some obj => rfl
    | none =>
      unfold insertTerminal at h ⊢
      cases hfi : (if mgr then
          b.add_interface "org.freedesktop.DBus.ObjectManager"
            DBusObjectManagerInterface.new
        else .ok b) with
      | error e2 => simp [hfi]
      | ok fi =>
        cases hfin : fi.finalize names with
        | error e2 => simp [hfi, hfin]
        | ok ifaces => simp [hfi, hfin] at h

/-- Replacing the looked-up child exchanges exactly its object count. -/
theorem objectCountChildren_replaceChild
    (children : List (String × ObjectTree)) (c : String)
    (child v : ObjectTree) (hl : List.lookup c children = some child) :
    objectCountChildren (replaceChild children c v) + child.objectCount =
      objectCountChildren children + v.objectCount := by
  induction children with
  | nil => simp [List.lookup] at hl
  | cons kv rest ih =>
    obtain ⟨k2, v2⟩ := kv
    by_cases hk : c = k2
    · subst hk
      rw [List.lookup_cons_self] at hl
      cases hl
      simp [replaceChild, objectCountChildren]
      omega
    · have hk2 : (k2 == c) = false := by
        simp [hk]
        exact fun hEq => hk hEq.symm
      rw [List.lookup] at hl
      rw [show (c == k2) = false by simp [hk]] at hl
      simp at hl
      simp [replaceChild, hk2, objectCountChildren]
      have := ih hl
      omega

/-- Object counts add over list concatenation. -/
theorem objectCountChildren_append (l1 l2 : List (String × ObjectTree)) :
    objectCountChildren (l1 ++ l2) =
      objectCountChildren l1 + objectCountChildren l2 := by
  induction l1 with
  | nil => simp [objectCountChildren]
  | cons kv rest ih => simp [objectCountChildren, ih]; omega

/-- A failing walk binds no object anywhere: the total object count of
the returned tree equals that of the input tree. -/
theorem insertWalk_error_count (path : String) (b : InterfacesBuilder)
    (mgr : Bool) (comps : List String) :
    ∀ (t : ObjectTree) (e : DBusError),
      (insertWalk path b mgr t comps).fst = .error e →
      ((insertWalk path b mgr t comps).snd).objectCount = t.objectCount := by
  induction comps with
  | nil =>
    intro t e h
    simp only [insertWalk] at h ⊢
    rw [insertTerminal_error_snd path b mgr t e h]
  | cons c rest ih =>
    intro t e h
    cases t with
    | node o m names children =>
      by_cases hc : c = ""
      · subst hc
        simp [insertWalk]
      · unfold insertWalk at h ⊢
        rw [if_neg (by simp [hc])] at h ⊢
        cases hl : List.lookup c children with
        | some child =>
          rw [hl] at h
          dsimp only at h ⊢
          have hcount := ih child e h
          simp only [ObjectTree.objectCount]
          have hrepl := objectCountChildren_replaceChild children c child
            ((insertWalk path b mgr child rest).snd) hl
          omega
        | none =>
          rw [hl] at h
          dsimp only at h ⊢
          have hcount := ih ObjectTree.new e h
          have hnew : ObjectTree.new.objectCount = 0 := by
            simp [ObjectTree.new, ObjectTree.objectCount, objectCountChildren]
          simp only [ObjectTree.objectCount, objectCountChildren_append,
            objectCountChildren]
          omega

/-- A walk that still has a component to descend into never touches the
object bound at the current node. -/
theorem insertWalk_cons_obj (path : String) (b : InterfacesBuilder)
    (mgr : Bool) (t : ObjectTree) (c : String) (rest : List String) :
    ((insertWalk path b mgr t (c :: rest)).snd).obj = t.obj := by
  cases t with
  | node o m names children =>
    unfold insertWalk
    by_cases hc : c = ""
    · subst hc; simp [ObjectTree.obj]
    · rw [if_neg (by simp [hc])]
      cases hl : List.lookup c children with
      | some child => simp [ObjectTree.obj]
      | none => simp [ObjectTree.obj]

/-! Claim theorems. -/

/-- C1: the claim states that a Set value whose wire-signature differs
from the declared property signature yields InvalidArgs before any
handler call.  The source has the test inverted: evaluated on a
write-only property of declared signature s, a value of signature i (a
mismatch) reaches the write handler and succeeds, while a value of
signature s (a match) is rejected with InvalidArgs without reaching the
handler. -/
theorem set_property_value_inverted_check :
    propIfaceWO.set_property_value "Volume" (Value.other "i") = (.ok [], true) ∧
    propIfaceWO.set_property_value "Volume" (Value.str "x") =
      (.error Arguments.invalid_arguments, false) :=
  ⟨rfl, rfl⟩

/-- C5: the claim states that a read handler returning a value whose
signature disagrees with the declared one makes get_property_value
panic, and an agreeing value is returned.  The source has the test
inverted: the disagreeing value of signature i is shipped in an Ok
reply, while the agreeing string value makes the function panic
(modelled as none). -/
theorem get_property_value_inverted_panic :
    propIfaceRO.get_property_value "Mismatched" = some (.ok [Value.other "i"]) ∧
    propIfaceRO.get_property_value "Matched" = none :=
  ⟨rfl, rfl⟩

/-- C2: the claim states that a correct call to a registered (path,
interface, method) invokes the callback and yields a MethodReturn of the
declared out-signature.  Evaluated on an object registered at /a: the
insertion succeeds and stores the object under the single-segment child
key a, the registry alone would indeed produce the claimed MethodReturn
(body signature s) with the callback invoked, but the dispatch path
looks the FULL path string /a up among the children keys, misses, sends
an UnknownObject error reply instead and never invokes the callback. -/
theorem registered_path_never_dispatched :
    (ObjectTree.new.insert "/a" testBuilder false).fst = .ok () ∧
    (treeT.find_object "a").isSome = true ∧
    treeT.find_object "/a" = none ∧
    srvT.handle_message msgT =
      { passedOn := none,
        sent := [(msgT.error_message "org.freedesktop.DBus.Error.UnknownObject").add_argument
                   (.str ("unknown object: " ++ "/a"))],
        cb_invoked := false, panicked := false } ∧
    regT.handle msgT = .replied (msgT.return_message.add_argument (.str "hi")) true :=
  ⟨rfl, rfl, rfl, rfl, rfl⟩

/-- C3 counterexample: the claim states that a method call whose path is
in no named server object tree is dropped with no reply of any kind.
With one named server whose tree does not contain /x, processing the
call sends an UnknownObject error reply, so the sent list is not empty. -/
theorem runner_unknown_path_sends_reply_cex :
    srvEmpty.objects.find_object "/x" = none ∧
    (Runner.process [] [("com.example.empty", srvEmpty)] msgStrayPath).sent =
      [replyStray] ∧
    [replyStray] ≠ ([] : List Message) :=
  ⟨rfl, rfl, List.cons_ne_nil _ _⟩

/-- C3 (amended): when at least one named server is registered and no
server tree resolves the target path, the FIRST server consumes the
message and sends exactly one UnknownObject error reply; with no named
servers the message passes through with no reply. -/
theorem runner_unknown_path_first_server_replies
    (listeners : List DBusServer) (servers : List (String × DBusServer))
    (m : Message) (p : String)
    (hty : m.msgType = .MethodCall) (hp : m.path = some p)
    (hne : servers ≠ [])
    (hfind : ∀ sp ∈ servers, sp.2.objects.find_object p = none) :
    Runner.process listeners servers m =
      { remaining := none,
        sent := [(m.error_message "org.freedesktop.DBus.Error.UnknownObject").add_argument
                   (.str ("unknown object: " ++ p))],
        cb_invoked := false, panicked := false } := by
  obtain ⟨⟨n, s⟩, rest, hs⟩ := List.exists_cons_of_ne_nil hne
  subst hs
  have h1 : s.objects.find_object p = none :=
    hfind (n, s) (List.mem_cons_self _ _)
  have hd : s.handle_message m =
      { passedOn := none,
        sent := [(m.error_message "org.freedesktop.DBus.Error.UnknownObject").add_argument
                   (.str ("unknown object: " ++ p))],
        cb_invoked := false, panicked := false } := by
    simp [DBusServer.handle_message, DBusServer._call_method, hty, hp, h1]
  simp [Runner.process, Runner.processServers, hd]

/-- C3 witness: the amended statement applied to one concrete server
with an empty tree and a call targeting /x. -/
theorem runner_unknown_path_first_server_replies_witness :
    Runner.process [] [("com.example.empty", srvEmpty)] msgStrayPath =
      { remaining := none,
        sent := [(msgStrayPath.error_message "org.freedesktop.DBus.Error.UnknownObject").add_argument
                   (.str ("unknown object: " ++ "/x"))],
        cb_invoked := false, panicked := false } :=
  runner_unknown_path_first_server_replies [] _ msgStrayPath "/x" rfl rfl
    (List.cons_ne_nil _ _)
    (by
      intro sp hsp
      rw [List.mem_singleton] at hsp
      subst hsp
      rfl)

/-- C4 counterexample: the claim states that an unknown interface yields
an error reply named UnknownInterface.  Evaluated on a finalized
registry and a call naming an absent interface, the reply error name is
UnknownMethod, not UnknownInterface. -/
theorem handle_unknown_interface_error_name_cex :
    regT.handle msgUnknownIface = .replied replyUnknownIface false ∧
    replyUnknownIface.errorName = some "org.freedesktop.DBus.Error.UnknownMethod" ∧
    replyUnknownIface.errorName ≠ some "org.freedesktop.DBus.Error.UnknownInterface" :=
  ⟨rfl, rfl, by decide⟩

/-- C4 (amended): with both headers present, an interface absent from
the registry is answered by an error reply named UnknownMethod carrying
the text `unknown interface: ..`, and a present interface without the
requested method by an error reply named UnknownMethod carrying the text
`unknown method: ..`; neither reply invokes any callback. -/
theorem handle_unknown_names :
    (∀ (I : Interfaces) (msg : Message) (hdrs : CallHeaders),
        CallHeaders.new msg = some hdrs →
        List.lookup hdrs.interface I.map = none →
        I.handle msg = .replied
          ((msg.error_message "org.freedesktop.DBus.Error.UnknownMethod").add_argument
            (.str ("unknown interface: " ++ hdrs.interface))) false) ∧
    (∀ (I : Interfaces) (msg : Message) (hdrs : CallHeaders) (iface : Interface),
        CallHeaders.new msg = some hdrs →
        List.lookup hdrs.interface I.map = some iface →
        List.lookup hdrs.method iface.methods = none →
        I.handle msg = .replied
          ((msg.error_message "org.freedesktop.DBus.Error.UnknownMethod").add_argument
            (.str ("unknown method: " ++ hdrs.method))) false) := by
  constructor
  · intro I msg hdrs hh hi
    unfold Interfaces.handle
    rw [hh]
    dsimp only
    rw [hi]
  · intro I msg hdrs iface hh hi hm
    unfold Interfaces.handle
    rw [hh]
    dsimp only
    rw [hi]
    dsimp only
    rw [hm]

/-- C4 witness: the amended statement applied to the finalized user
registry, once with an absent interface and once with an absent method. -/
theorem handle_unknown_names_witness :
    regT.handle msgUnknownIface = .replied
      ((msgUnknownIface.error_message "org.freedesktop.DBus.Error.UnknownMethod").add_argument
        (.str ("unknown interface: " ++ "com.example.Missing"))) false ∧
    regT.handle msgUnknownMethod = .replied
      ((msgUnknownMethod.error_message "org.freedesktop.DBus.Error.UnknownMethod").add_argument
        (.str ("unknown method: " ++ "Nope"))) false :=
  ⟨handle_unknown_names.1 regT msgUnknownIface
      { interface := "com.example.Missing", method := "M" } rfl rfl,
   handle_unknown_names.2 regT msgUnknownMethod
      { interface := "com.example.Test", method := "Nope" } testInterface rfl rfl rfl⟩

/-- C6 counterexample: the claim requires a NONEMPTY suffix after the
slash.  For the registered object /a and the observed object /a/ the
source match succeeds although the only decomposition has an empty
suffix. -/
theorem namespace_eq_empty_suffix_cex :
    nsTarget.namespace_eq obsTargetSlash = true ∧
    ¬(∃ s : String, s ≠ "" ∧
        obsTargetSlash.object = nsTarget.object ++ "/" ++ s) := by
  refine ⟨rfl, ?_⟩
  rintro ⟨s, hne, heq⟩
  apply hne
  obtain ⟨sd⟩ := s
  have hd : (['/', 'a', '/'] : List Char) = ['/', 'a', '/'] ++ sd :=
    congrArg String.data heq
  have hlen := congrArg List.length hd
  simp only [List.length_append, List.length_cons, List.length_nil] at hlen
  have hsd : sd = [] := List.eq_nil_of_length_eq_zero (by omega)
  rw [hsd]

/-- C6 (amended): namespace_eq holds exactly when interface and method
agree and the observed object is the registered object, a slash, and a
POSSIBLY EMPTY suffix; an observed object equal to the registered one
still never matches. -/
theorem namespace_eq_spec :
    (∀ n t : Target, n.namespace_eq t = true ↔
        (n.interface = t.interface ∧ n.method = t.method ∧
         ∃ s : String, t.object = n.object ++ "/" ++ s)) ∧
    (∀ n t : Target, t.object = n.object → n.namespace_eq t = false) := by
  have h1 : ∀ n t : Target, n.namespace_eq t = true ↔
      (n.interface = t.interface ∧ n.method = t.method ∧
       ∃ s : String, t.object = n.object ++ "/" ++ s) := by
    intro n t
    unfold Target.namespace_eq
    rw [Bool.and_eq_true, Bool.and_eq_true, beq_iff_eq, beq_iff_eq,
      strStartsWith_iff]
    tauto
  refine ⟨h1, ?_⟩
  intro n t heq
  by_contra hne
  have htrue : n.namespace_eq t = true := by
    cases hb : n.namespace_eq t
    · exact absurd hb hne
    · rfl
  obtain ⟨-, -, s, hs⟩ := (h1 n t).mp htrue
  rw [heq] at hs
  have hd := congrArg String.data hs
  simp only [String.data_append] at hd
  have hlen := congrArg List.length hd
  simp only [List.length_append, List.length_cons, List.length_nil] at hlen
  omega

/-- C6 witness: the amended statement applied to the registered object
/a with a strict descendant /a/b (match) and with /a itself (no match). -/
theorem namespace_eq_spec_witness :
    nsTarget.namespace_eq obsTargetChild = true ∧
    nsTarget.namespace_eq obsTargetSelf = false :=
  ⟨(namespace_eq_spec.1 nsTarget obsTargetChild).mpr ⟨rfl, rfl, "b", rfl⟩,
   namespace_eq_spec.2 nsTarget obsTargetSelf rfl⟩

/-- C7: a call resolving to a registered method whose declared
in-signature differs from the body signature is answered by the
InvalidArgs error reply and the callback is never reached. -/
theorem handle_signature_mismatch_invalid_args (I : Interfaces)
    (msg : Message) (hdrs : CallHeaders) (iface : Interface) (method : Method)
    (hh : CallHeaders.new msg = some hdrs)
    (hi : List.lookup hdrs.interface I.map = some iface)
    (hm : List.lookup hdrs.method iface.methods = some method)
    (hsig : Interfaces._check_signature method.in_args msg = false) :
    I.handle msg = .replied (Arguments.invalid_arguments.into_message msg) false ∧
    (Arguments.invalid_arguments.into_message msg).errorName =
      some "org.freedesktop.DBus.Error.InvalidArgs" := by
  constructor
  · unfold Interfaces.handle
    rw [hh]
    dsimp only
    rw [hi]
    dsimp only
    rw [hm]
    dsimp only
    unfold Interfaces.handleMethod
    rw [hsig]
    rfl
  · rfl

/-- C7 witness: the user registry answering Hello (declared empty
in-signature) called with one string argument. -/
theorem handle_signature_mismatch_invalid_args_witness :
    regT.handle msgMismatched =
      .replied (Arguments.invalid_arguments.into_message msgMismatched) false ∧
    (Arguments.invalid_arguments.into_message msgMismatched).errorName =
      some "org.freedesktop.DBus.Error.InvalidArgs" :=
  handle_signature_mismatch_invalid_args regT msgMismatched
    { interface := "com.example.Test", method := "Hello" }
    testInterface testMethod rfl rfl rfl rfl

/-- C8 counterexample: the claim states that every outcome of the
release_name call other than the Released reply is fatal.  A named
server whose release_name CALL fails with a transport error takes the
logged-and-continue branch, not the fatal one. -/
theorem drop_transport_error_not_fatal_cex :
    srvEmpty.can_handle = true ∧
    srvEmpty.drop (.error (.ErrorMessage "connection closed")) = .logged ∧
    (srvEmpty.drop (.error (.ErrorMessage "connection closed"))).isFatal = false :=
  ⟨rfl, rfl, rfl⟩

/-- C8 (amended): a listener never reaches the release_name call; a
named server always does, panics on the NonExistent and NotOwner
REPLIES, finishes silently on Released, and merely logs and continues
when the release_name call itself fails. -/
theorem drop_release_behaviour (s : DBusServer)
    (r : Except DBusError ReleaseNameReply) :
    (s.can_handle = false → s.drop r = .skipped) ∧
    (s.can_handle = true → s.drop r ≠ .skipped) ∧
    (s.can_handle = true → r = .ok .Released → s.drop r = .finished) ∧
    (s.can_handle = true → r = .ok .NonExistent →
      s.drop r = .panicked ("internal error: non-existent name " ++ s.name ++ "?!")) ∧
    (s.can_handle = true → r = .ok .NotOwner →
      s.drop r = .panicked ("internal error: not the owner of " ++ s.name ++ "?!")) ∧
    (s.can_handle = true → ∀ e : DBusError, r = .error e → s.drop r = .logged) := by
  cases hc : s.can_handle
  · simp [DBusServer.drop, hc]
  · cases r with
    | ok reply => cases reply <;> simp [DBusServer.drop, hc]
    | error e => simp [DBusServer.drop, hc]

/-- C8 witness: the amended statement applied to a listener, and to a
named server with each decisive release outcome. -/
theorem drop_release_behaviour_witness :
    (DBusServer.new_listener "l").drop (.ok .Released) = .skipped ∧
    srvEmpty.drop (.ok .Released) = .finished ∧
    srvEmpty.drop (.ok .NonExistent) =
      .panicked ("internal error: non-existent name " ++ srvEmpty.name ++ "?!") ∧
    srvEmpty.drop (.error (.ErrorMessage "io")) = .logged :=
  ⟨(drop_release_behaviour (DBusServer.new_listener "l") (.ok .Released)).1 rfl,
   (drop_release_behaviour srvEmpty (.ok .Released)).2.2.1 rfl rfl,
   (drop_release_behaviour srvEmpty (.ok .NonExistent)).2.2.2.1 rfl rfl,
   (drop_release_behaviour srvEmpty (.error (.ErrorMessage "io"))).2.2.2.2.2 rfl
     (.ErrorMessage "io") rfl⟩

/-- C9 counterexample: the claim states that no object OR TREE NODE
binding is created when insertion fails on an empty segment.  Inserting
/a/ into an empty tree does fail InvalidPath, yet the node a has been
created and recorded in the children-name list. -/
theorem insert_invalid_path_creates_node_cex :
    (ObjectTree.new.insert "/a/" Interfaces.new false).fst =
      .error (.InvalidPath "/a/") ∧
    ((ObjectTree.new.insert "/a/" Interfaces.new false).snd).children_names = ["a"] ∧
    ObjectTree.new.children_names = ([] : List String) :=
  ⟨rfl, rfl, rfl⟩

/-- C9 (amended): a slash-prefixed path with an empty segment (the bare
root, a trailing slash, a doubled slash) makes insertion fail
InvalidPath; no object is bound anywhere (the object count is unchanged
and in particular the root keeps its object field, so the root path can
never host an object), though tree nodes for the valid leading segments
may have been created and remain. -/
theorem insert_empty_segment_invalid (t : ObjectTree) (path : String)
    (b : InterfacesBuilder) (mgr : Bool)
    (hstart : strStartsWith path "/" = true)
    (hmem : "" ∈ (strSplit path '/').drop 1) :
    (t.insert path b mgr).fst = .error (.InvalidPath path) ∧
    ((t.insert path b mgr).snd).objectCount = t.objectCount ∧
    ((t.insert path b mgr).snd).obj = t.obj := by
  unfold ObjectTree.insert
  rw [hstart]
  simp only [if_true]
  refine ⟨insertWalk_mem_empty path b mgr _ t hmem, ?_, ?_⟩
  · exact insertWalk_error_count path b mgr _ t (.InvalidPath path)
      (insertWalk_mem_empty path b mgr _ t hmem)
  · obtain ⟨c, rest, hcomps⟩ :=
      List.exists_cons_of_ne_nil (List.ne_nil_of_mem hmem)
    rw [hcomps]
    exact insertWalk_cons_obj path b mgr t c rest

/-- C9 witness: the amended statement applied to the empty tree and the
doubled-slash path /a//b. -/
theorem insert_empty_segment_invalid_witness :
    (ObjectTree.new.insert "/a//b" Interfaces.new false).fst =
      .error (.InvalidPath "/a//b") ∧
    ((ObjectTree.new.insert "/a//b" Interfaces.new false).snd).objectCount =
      ObjectTree.new.objectCount ∧
    ((ObjectTree.new.insert "/a//b" Interfaces.new false).snd).obj =
      ObjectTree.new.obj :=
  insert_empty_segment_invalid ObjectTree.new "/a//b" Interfaces.new false rfl
    (by decide)

/-- C10: a method call lacking the path header is consumed by the first
named server that sees it; nothing is sent, no callback runs, and the
fold over the remaining servers stops. -/
theorem runner_missing_path_consumed
    (listeners : List DBusServer) (n : String) (s : DBusServer)
    (rest : List (String × DBusServer)) (m : Message)
    (hty : m.msgType = .MethodCall) (hp : m.path = none) :
    s.handle_message m =
      { passedOn := none, sent := [], cb_invoked := false, panicked := false } ∧
    Runner.process listeners ((n, s) :: rest) m =
      { remaining := none, sent := [], cb_invoked := false, panicked := false } := by
  have h1 : s.handle_message m =
      { passedOn := none, sent := [], cb_invoked := false, panicked := false } := by
    simp [DBusServer.handle_message, DBusServer._call_method, hty, hp]
  exact ⟨h1, by simp [Runner.process, Runner.processServers, h1]⟩

/-- C10 witness: a pathless call offered to the concrete named server. -/
theorem runner_missing_path_consumed_witness :
    srvEmpty.handle_message msgNoPath =
      { passedOn := none, sent := [], cb_invoked := false, panicked := false } ∧
    Runner.process [] [("com.example.empty", srvEmpty)] msgNoPath =
      { remaining := none, sent := [], cb_invoked := false, panicked := false } :=
  runner_missing_path_consumed [] "com.example.empty" srvEmpty [] msgNoPath rfl rfl

end Bus
